import Mathlib

/-!
Verification development for the scoring and leaderboard core of a fantasy
pick'em league web application (a single-file Flask/PostgreSQL app, `app.py`).

The definitions below are a shallow embedding of the app's core:

* database tables become lists of rows (`Pick`, `ResultRow`, `Rider`,
  `RoundRow`, `UserRow`); SQL `DELETE`/`INSERT` become list filtering and
  appending, in statement order;
* `SELECT ... ORDER BY` and Python's `sorted` (a stable sort) are both modelled
  by `pySorted`, a stable insertion sort, which is extensionally the same
  function as any stable sort by the same comparator;
* dictionary indexes built by iterating over query rows (later rows overwrite
  earlier ones for the same key) become `getLast?` over the matching rows;
  `cursor.fetchone()` on a unique key becomes `find?`;
* `random.choice` becomes `rchoice`, taking the random draw as an explicit
  index argument;
* wall-clock/timezone deadline computation stays outside the model: the code
  only ever consumes the Boolean `now_utc > deadline`, which we pass in as the
  `deadline_passed` argument.
-/

namespace SLR

/-- A row of the `picks` table: `(user_id, round_num, class, rider, auto_random)`. -/
structure Pick where
  user : Nat
  round : Int
  cls : String
  rider : String
  auto_random : Bool
deriving DecidableEq, Repr

/-- A row of the `results` table: `(round_num, class, rider, position)`. -/
structure ResultRow where
  round : Int
  cls : String
  rider : String
  position : Int
deriving DecidableEq, Repr

/-- A row of the `riders` table: `(name, class, active)`. -/
structure Rider where
  name : String
  cls : String
  active : Bool
deriving DecidableEq, Repr

/-- The `race_type` column of `schedule`, constrained by
`CHECK (race_type IN ('supercross', 'motocross', 'SMX'))`. -/
inductive RaceType where
  | supercross
  | motocross
  | SMX
deriving DecidableEq, Repr

/-- A row of the `schedule` table (the fields the core logic reads:
`round`, `class_250`, `race_type`; `race_date`/`location` only feed the
deadline computation, which enters the model as a Boolean). -/
structure RoundRow where
  round : Int
  class_250 : String
  race_type : RaceType
deriving DecidableEq, Repr

/-- A row of the `users` table (the fields the leaderboard reads). -/
structure UserRow where
  id : Nat
  username : String
deriving DecidableEq, Repr

/-- Stable insertion of `x` into `l`: `x` is placed before the first `y` with
`le x y`. Helper for `pySorted`. -/
def pyInsert (le : α → α → Bool) (x : α) : List α → List α
  | [] => [x]
  | y :: ys => if le x y then x :: y :: ys else y :: pyInsert le x ys

/-- Model of Python's `sorted(l)` with comparator `le` ("key of `a` ≤ key of
`b`"): a stable sort. Python's `sorted` is specified to be stable, and all
stable sorts by the same total preorder agree, so this insertion sort is
extensionally the embedded function. `sorted(l, key=k)` is
`pySorted (fun a b => k a ≤ k b) l`; `reverse=True` flips the key comparison
but keeps stability, i.e. comparator `fun a b => k b ≤ k a`. -/
def pySorted (le : α → α → Bool) : List α → List α
  | [] => []
  | x :: xs => pyInsert le x (pySorted le xs)

/-- `get_points(position)` from app.py (lines 383-389): the scoring function. -/
def get_points (position : Int) : Int :=
  if position = 1 then 25
  else if position = 2 then 22
  else if position = 3 then 20
  else if position = 4 then 18
  else if 5 ≤ position ∧ position ≤ 20 then 22 - position
  else 0

/-- The per-position points `CASE` expression embedded in the SQL ranking query
of `get_top_riders_by_points` (app.py lines 337-345). -/
def casePoints (position : Int) : Int :=
  if position = 1 then 25
  else if position = 2 then 22
  else if position = 3 then 20
  else if position = 4 then 18
  else if 5 ≤ position ∧ position ≤ 20 then 22 - position
  else 0

/-- `get_riders_by_class`: `SELECT name FROM riders WHERE class = %s AND
active = TRUE ORDER BY name` (app.py lines 278-284). -/
def get_riders_by_class (ridersDB : List Rider) (cls : String) : List String :=
  pySorted (fun a b => decide (a ≤ b))
    ((ridersDB.filter (fun r => r.cls == cls && r.active)).map (fun r => r.name))

/-- `get_available_250_riders(round_num)` (app.py lines 286-300): the 250-class
roster for a round depends on the round's `class_250` split. -/
def get_available_250_riders (ridersDB : List Rider) (schedule : List RoundRow)
    (round_num : Int) : List String :=
  match schedule.find? (fun s => s.round == round_num) with
  | none => []
  | some s =>
    if s.class_250 == "West" then get_riders_by_class ridersDB "250_West"
    else if s.class_250 == "East" then get_riders_by_class ridersDB "250_East"
    else get_riders_by_class ridersDB "250_West" ++ get_riders_by_class ridersDB "250_East"

/-- The available-rider computation inlined at the top of
`get_top_riders_by_points` (app.py lines 313-330). It repeats the
`get_available_250_riders` queries, except that in the `Combined` case a single
`class IN ('250_West','250_East') ... ORDER BY name` query produces one
name-sorted list rather than two concatenated ones. -/
def available_riders_for (ridersDB : List Rider) (schedule : List RoundRow)
    (rider_class : String) (round_num : Int) : List String :=
  if rider_class == "250" then
    match schedule.find? (fun s => s.round == round_num) with
    | none => []
    | some s =>
      if s.class_250 == "West" then get_riders_by_class ridersDB "250_West"
      else if s.class_250 == "East" then get_riders_by_class ridersDB "250_East"
      else
        pySorted (fun a b => decide (a ≤ b))
          ((ridersDB.filter (fun r => (r.cls == "250_West" || r.cls == "250_East") && r.active)).map
            (fun r => r.name))
  else get_riders_by_class ridersDB "450"

/-- The rows of `results` contributing to a rider's championship points before
`round_num`: `WHERE rider = ... AND round_num < %s` (app.py line 348). -/
def hist_results (results : List ResultRow) (rider : String) (round_num : Int) :
    List ResultRow :=
  results.filter (fun w => w.rider == rider && w.round < round_num)

/-- `SUM(CASE ... END)` of the ranking query, grouped by rider
(app.py lines 337-349). -/
def rider_total_points (results : List ResultRow) (rider : String) (round_num : Int) : Int :=
  ((hist_results results rider round_num).map (fun w => casePoints w.position)).sum

/-- `get_top_riders_by_points(rider_class, round_num, exclude_riders)`
(app.py lines 302-381): the smart auto-pick candidate pool with its two
fallbacks. `riders_with_results` (the riders with `COUNT(*) > 0` in the grouped
query) is kept in roster order; the SQL grouped-row order is unspecified and
only ever influences the order of `fallback_riders` ties, never membership. -/
def get_top_riders_by_points (ridersDB : List Rider) (schedule : List RoundRow)
    (results : List ResultRow) (rider_class : String) (round_num : Int)
    (exclude_riders : List String) : List String :=
  let available_riders := available_riders_for ridersDB schedule rider_class round_num
  if available_riders.isEmpty then []
  else
    let riders_with_results :=
      available_riders.filter (fun r => !(hist_results results r round_num).isEmpty)
    let sorted_riders := pySorted (fun a b =>
        decide (rider_total_points results b round_num < rider_total_points results a round_num
          ∨ (rider_total_points results a round_num = rider_total_points results b round_num
              ∧ a ≤ b)))
      riders_with_results
    let top_with_points :=
      (sorted_riders.filter (fun r => 0 < rider_total_points results r round_num)).take 10
    let top_with_points :=
      if exclude_riders.isEmpty then top_with_points
      else top_with_points.filter (fun r => !exclude_riders.contains r)
    if !top_with_points.isEmpty then top_with_points
    else
      let fallback_riders := riders_with_results.filter (fun r => !exclude_riders.contains r)
      if !fallback_riders.isEmpty then
        (pySorted (fun a b =>
            decide (rider_total_points results b round_num ≤ rider_total_points results a round_num))
          fallback_riders).take 10
      else available_riders.filter (fun r => !exclude_riders.contains r)

/-- `random.choice(l) if l else None` (app.py lines 1270-1271, 2121-2122), with
the random draw supplied as the index `i`. -/
def rchoice (l : List String) (i : Nat) : Option String :=
  if l.isEmpty then none else l.get? (i % l.length)

/-- The `nearby_rounds` window of the 3-round repeat rule: two rounds on either
side of the target, restricted to positive round numbers (app.py lines
1230, 1253-1254, 2102-2104). -/
def nearby_rounds (round_num : Int) : List Int :=
  [round_num - 2, round_num - 1, round_num + 1, round_num + 2].filter (fun r => decide (0 < r))

/-- The repeat-rule query of the `pick` route: `SELECT rider FROM picks WHERE
user_id = ... AND class = ... AND round_num = ANY(nearby_rounds)` followed by a
membership test of the submitted rider (app.py lines 1231-1233, 1236-1238). -/
def picked_in_window (picks : List Pick) (u : Nat) (cls rider : String)
    (round_num : Int) : Bool :=
  ((picks.filter (fun p =>
      p.user == u && p.cls == cls && (nearby_rounds round_num).contains p.round)).map
    (fun p => p.rider)).contains rider

/-- `DELETE FROM picks WHERE user_id = %s AND round_num = %s` (app.py line 1241). -/
def delete_round_picks (picks : List Pick) (u : Nat) (round_num : Int) : List Pick :=
  picks.filter (fun p => !(p.user == u && p.round == round_num))

/-- Outcome of a POST to the `pick` route, naming the flash message / branch the
code takes. `mustSelectBoth`, `invalidRider`, `repeat450`, `repeat250` are the
four rejection flashes of the submission handler; `saved` is the success flash;
`lockedPage` is the post-deadline path that skips the handler entirely and just
renders the page (no flash); `autoAssigned`/`autoNoCandidates` are the lazy
auto-pick path taken post-deadline when the user has no picks. -/
inductive PickOutcome where
  | saved
  | mustSelectBoth
  | invalidRider
  | repeat450
  | repeat250
  | lockedPage
  | autoAssigned (r450 r250 : String)
  | autoNoCandidates
deriving DecidableEq, Repr

/-- `true` exactly for the outcomes in which the submission handler flashes a
rejection message to the submitting user ('Must select one rider from each
class', 'Invalid rider', 'Cannot pick the same ... rider within 3 rounds').
`saved` flashes a success message; `lockedPage` and the auto-pick outcomes are
not rejections of the submitted riders. -/
def flashes_error : PickOutcome → Bool
  | .mustSelectBoth => true
  | .invalidRider => true
  | .repeat450 => true
  | .repeat250 => true
  | _ => false

/-- The pre-deadline POST handler of the `pick` route (app.py lines 1221-1249):
validation, the symmetric repeat rule (450 checked first, then 250), then
delete-both-then-insert-both with `auto_random = 0`. An absent form field and
an empty one are both falsy in Python; both are modelled by `""`. -/
def submit_pick (picks : List Pick) (riders450 riders250 : List String)
    (u : Nat) (round_num : Int) (rider450 rider250 : String) :
    PickOutcome × List Pick :=
  if rider450 == "" || rider250 == "" then (.mustSelectBoth, picks)
  else if !riders450.contains rider450 || !riders250.contains rider250 then
    (.invalidRider, picks)
  else if picked_in_window picks u "450" rider450 round_num then (.repeat450, picks)
  else if picked_in_window picks u "250" rider250 round_num then (.repeat250, picks)
  else
    (.saved,
      delete_round_picks picks u round_num ++
        [⟨u, round_num, "450", rider450, false⟩, ⟨u, round_num, "250", rider250, false⟩])

/-- The rows behind `existing_picks` of the `pick` route: `SELECT class, rider,
auto_random FROM picks WHERE user_id = %s AND round_num = %s` (app.py lines
1202-1205); `len(existing_picks) == 0` iff this list is empty. -/
def existing_picks_rows (picks : List Pick) (u : Nat) (round_num : Int) : List Pick :=
  picks.filter (fun p => p.user == u && p.round == round_num)

/-- The exclusion query of the auto-pick paths: riders this user picked in the
`nearby_rounds` window for one class (app.py lines 1256-1264, 2106-2114). -/
def auto_excluded (picks : List Pick) (u : Nat) (cls : String) (round_num : Int) :
    List String :=
  (picks.filter (fun p =>
      p.user == u && p.cls == cls && (nearby_rounds round_num).contains p.round)).map
    (fun p => p.rider)

/-- A POST request to the `pick` route for an existing round (app.py lines
1221-1281): if the deadline has not passed, the submission handler runs;
otherwise, if the user has no picks for the round, the lazy smart auto-pick
runs (inserting with `auto_random = 1` only when both classes yield a
candidate); otherwise nothing happens and the locked page is rendered.
`i450`/`i250` supply the two `random.choice` draws. -/
def pick_post (deadline_passed : Bool) (ridersDB : List Rider)
    (schedule : List RoundRow) (results : List ResultRow) (picks : List Pick)
    (u : Nat) (round_num : Int) (rider450 rider250 : String) (i450 i250 : Nat) :
    PickOutcome × List Pick :=
  let riders450 := get_riders_by_class ridersDB "450"
  let riders250 := get_available_250_riders ridersDB schedule round_num
  if !deadline_passed then
    submit_pick picks riders450 riders250 u round_num rider450 rider250
  else if (existing_picks_rows picks u round_num).isEmpty then
    let excluded450 := auto_excluded picks u "450" round_num
    let excluded250 := auto_excluded picks u "250" round_num
    let top450 := get_top_riders_by_points ridersDB schedule results "450" round_num excluded450
    let top250 := get_top_riders_by_points ridersDB schedule results "250" round_num excluded250
    match rchoice top450 i450, rchoice top250 i250 with
    | some r450, some r250 =>
      (.autoAssigned r450 r250,
        picks ++ [⟨u, round_num, "450", r450, true⟩, ⟨u, round_num, "250", r250, true⟩])
    | _, _ => (.autoNoCandidates, picks)
  else (.lockedPage, picks)

/-- Outcome of a POST to the `admin_results` route: `duplicatePos` is the
'Duplicate position ... Fix and resubmit.' early return; `saved n` the
'Manual results saved — n rider positions recorded.' flash; `nothingEntered`
the 'No positions were entered.' flash. -/
inductive AdminOutcome where
  | duplicatePos
  | saved (count : Nat)
  | nothingEntered
deriving DecidableEq, Repr

/-- The collection loop of `admin_results` for one class (app.py lines
2277-2291): walk the roster in order, parse each rider's submitted position
(`form r = some pos` models a form value that is present and passes
`isdigit()`), abort with `none` on the first position already seen, else
collect `(rider, pos)` pairs in roster order. `seen` is `positions_seen`. -/
def collect_positions (form : String → Option Nat) :
    List String → List Nat → Option (List (String × Nat))
  | [], _ => some []
  | r :: rest, seen =>
    match form r with
    | none => collect_positions form rest seen
    | some pos =>
      if seen.contains pos then none
      else
        match collect_positions form rest (pos :: seen) with
        | none => none
        | some tail => some ((r, pos) :: tail)

/-- The apply loop of `admin_results` for one class (app.py lines 2295-2301):
for each collected `(rider, pos)`, `DELETE FROM results WHERE round_num AND
class AND rider` then `INSERT` the new row. -/
def apply_entries (round_num : Int) (cls : String) (entries : List (String × Nat))
    (results : List ResultRow) : List ResultRow :=
  entries.foldl (fun res e =>
    (res.filter (fun w => !(w.round == round_num && w.cls == cls && w.rider == e.1))) ++
      [⟨round_num, cls, e.1, (e.2 : Int)⟩]) results

/-- A POST to `admin_results(round_num)` (app.py lines 2273-2307): collect and
duplicate-check the 450 batch then the 250 batch; only if neither class holds a
repeated position are the entries applied (450 first, then 250, matching the
insertion order of the `submitted` dict) and committed. -/
def admin_results_post (form : String → String → Option Nat)
    (riders450 riders250 : List String) (round_num : Int)
    (results : List ResultRow) : AdminOutcome × List ResultRow :=
  match collect_positions (form "450") riders450 [] with
  | none => (.duplicatePos, results)
  | some e450 =>
    match collect_positions (form "250") riders250 [] with
    | none => (.duplicatePos, results)
    | some e250 =>
      let results450 := apply_entries round_num "450" e450 results
      let results250 := apply_entries round_num "250" e250 results450
      let saved_count := e450.length + e250.length
      (if 0 < saved_count then .saved saved_count else .nothingEntered, results250)

/-- The positions assigned by a submitted batch within one class, in roster
order: the parsed form values of the roster's riders. -/
def assigned_positions (form : String → Option Nat) (riders : List String) : List Nat :=
  riders.filterMap form

/-- The uniqueness invariant of the results store claimed by the spec: within
every `(round, class)` no two rows carry the same finishing position. -/
def positions_unique (results : List ResultRow) : Prop :=
  results.Pairwise (fun a b => a.round = b.round → a.cls = b.cls → a.position ≠ b.position)

instance (results : List ResultRow) : Decidable (positions_unique results) := by
  unfold positions_unique
  exact List.instDecidablePairwise results

/-- The picks index of `recalculate_leaderboard` (app.py lines 165-174): a dict
keyed by `(user_id, round_num, class)` built by iterating the rows, so for a
duplicate key the last row wins. -/
def pick_lookup (picks : List Pick) (u : Nat) (round_num : Int) (cls : String) :
    Option Pick :=
  (picks.filter (fun p => p.user == u && p.round == round_num && p.cls == cls)).getLast?

/-- The results index of `recalculate_leaderboard` (app.py lines 176-184):
keyed by `(round_num, class, rider)`, last row wins. -/
def result_lookup (results : List ResultRow) (round_num : Int) (cls rider : String) :
    Option Int :=
  ((results.filter (fun w => w.round == round_num && w.cls == cls && w.rider == rider)).map
    (fun w => w.position)).getLast?

/-- `round_race_types.get(rnd, 'supercross')` (app.py lines 149, 195): the dict
comprehension keeps the last schedule row per round number. -/
def race_type_of (schedule : List RoundRow) (round_num : Int) : RaceType :=
  match (schedule.filter (fun s => s.round == round_num)).getLast? with
  | none => .supercross
  | some s => s.race_type

/-- The four running totals `{'overall': 0, 'supercross': 0, 'motocross': 0,
'SMX': 0}` kept per user by `recalculate_leaderboard` (app.py lines 186-188). -/
structure Totals where
  overall : Int
  supercross : Int
  motocross : Int
  smx : Int
deriving DecidableEq, Repr

/-- `user_totals[user_id]['overall'] += points` together with
`user_totals[user_id][race_type] += points` (app.py lines 218-220). -/
def add_bucket (t : Totals) (rt : RaceType) (pts : Int) : Totals where
  overall := t.overall + pts
  supercross := if rt = .supercross then t.supercross + pts else t.supercross
  motocross := if rt = .motocross then t.motocross + pts else t.motocross
  smx := if rt = .SMX then t.smx + pts else t.smx

/-- One `(user, round, class)` step of the accumulation loop of
`recalculate_leaderboard` (app.py lines 197-220): if the user has a pick and
the pick's rider has a result, add `get_points(position)` to the running
totals; otherwise the totals are untouched. -/
def score_step (picks : List Pick) (results : List ResultRow) (u : Nat)
    (round_num : Int) (rt : RaceType) (cls : String) (t : Totals) : Totals :=
  match pick_lookup picks u round_num cls with
  | none => t
  | some p =>
    match result_lookup results round_num cls p.rider with
    | none => t
    | some pos => add_bucket t rt (get_points pos)

/-- The full accumulation for one user over the visible rounds (app.py lines
190-220): for each visible round, the `'450'` class then the `'250'` class. -/
def user_totals (picks : List Pick) (results : List ResultRow)
    (schedule : List RoundRow) (visible_rounds : List Int) (u : Nat) : Totals :=
  visible_rounds.foldl (fun t n =>
    score_step picks results u n (race_type_of schedule n) "250"
      (score_step picks results u n (race_type_of schedule n) "450" t))
    ⟨0, 0, 0, 0⟩

/-- `user_totals[u][view_type]` for a view-type key. -/
def view_total (t : Totals) (view : String) : Int :=
  if view == "overall" then t.overall
  else if view == "supercross" then t.supercross
  else if view == "motocross" then t.motocross
  else t.smx

/-- A row of the `leaderboard_totals` cache table (the columns written by
`recalculate_leaderboard`). -/
structure TotalsRow where
  user_id : Nat
  username : String
  view_type : String
  total_points : Int
  rank : Nat
deriving DecidableEq, Repr

/-- The ranking-and-insert phase of `recalculate_leaderboard` for one
view-type (app.py lines 233-248): `sorted(users, key=lambda u:
user_totals[u['id']][view_type], reverse=True)` — Python's stable sort with the
key comparison reversed — then `enumerate(sorted_users, 1)` writes one row per
user with its total and 1-based rank. `users` is the list fetched by
`SELECT id, username FROM users ORDER BY username` (app.py line 143). -/
def leaderboard_rows (users : List UserRow) (total : Nat → Int) (view : String) :
    List TotalsRow :=
  let sorted_users := pySorted (fun a b => decide (total b.id ≤ total a.id)) users
  sorted_users.enum.map (fun p => ⟨p.2.id, p.2.username, view, total p.2.id, p.1 + 1⟩)

/-- The `leaderboard_totals` rows one recalculation run persists for one
view-type, with the totals coming from the accumulation phase. -/
def recalculate_totals_rows (picks : List Pick) (results : List ResultRow)
    (schedule : List RoundRow) (visible_rounds : List Int) (users : List UserRow)
    (view : String) : List TotalsRow :=
  leaderboard_rows users
    (fun uid => view_total (user_totals picks results schedule visible_rounds uid) view) view

/-- The concrete form submission used to exhibit the stored-duplicate scenario:
rider `"B"` of the 450 class is assigned position 1, nothing else is entered. -/
def exForm : String → String → Option Nat := fun cls r =>
  if cls = "450" ∧ r = "B" then some 1 else none

/-- A concrete picks table used in the deadline-passed scenario: user 7 already
has a 450 pick for round 3. -/
def cexPicks : List Pick := [⟨7, 3, "450", "X", false⟩]

/-- A concrete form submission assigning position 1 to both riders "A" and "B"
of the 450 class: an internal duplicate. -/
def exFormDup : String → String → Option Nat := fun cls r =>
  if cls = "450" ∧ (r = "A" ∨ r = "B") then some 1 else none

theorem mem_pyInsert {le : α → α → Bool} {x a : α} {l : List α} :
    a ∈ pyInsert le x l ↔ a = x ∨ a ∈ l := by
  induction l with
  | nil => simp [pyInsert]
  | cons y ys ih =>
    by_cases h : le x y = true
    · simp [pyInsert, h]
    · simp only [pyInsert, if_neg h, List.mem_cons, ih]
      tauto

theorem pyInsert_perm (le : α → α → Bool) (x : α) (l : List α) :
    (pyInsert le x l).Perm (x :: l) := by
  induction l with
  | nil => simp [pyInsert]
  | cons y ys ih =>
    by_cases h : le x y = true
    · simp [pyInsert, h]
    · simp only [pyInsert, if_neg h]
      exact (ih.cons y).trans (List.Perm.swap x y ys)

theorem pySorted_perm (le : α → α → Bool) (l : List α) :
    (pySorted le l).Perm l := by
  induction l with
  | nil => simp [pySorted]
  | cons x xs ih => exact (pyInsert_perm le x (pySorted le xs)).trans (ih.cons x)

theorem pySorted_eq_nil_iff {le : α → α → Bool} {l : List α} :
    pySorted le l = [] ↔ l = [] := by
  constructor
  · intro h
    have := (pySorted_perm le l).length_eq
    rw [h] at this
    exact List.length_eq_zero.mp this.symm
  · intro h
    simp [h, pySorted]

theorem pairwise_pyInsert {le : α → α → Bool} {R : α → α → Prop}
    (htrans : ∀ a b c, le a b = true → le b c = true → le a c = true)
    (htot : ∀ a b, le a b = true ∨ le b a = true)
    {x : α} {l : List α}
    (hl : l.Pairwise (fun a b => le a b = true ∧ (le b a = true → R a b)))
    (hx : ∀ y ∈ l, R x y) :
    (pyInsert le x l).Pairwise (fun a b => le a b = true ∧ (le b a = true → R a b)) := by
  induction l with
  | nil => simp [pyInsert]
  | cons y ys ih =>
    rcases List.pairwise_cons.mp hl with ⟨hy, hys⟩
    by_cases h : le x y = true
    · simp only [pyInsert, if_pos h]
      refine List.pairwise_cons.mpr ⟨?_, hl⟩
      intro z hz
      rcases List.mem_cons.mp hz with rfl | hz
      · exact ⟨h, fun _ => hx z (List.mem_cons_self z ys)⟩
      · exact ⟨htrans x y z h (hy z hz).1, fun _ => hx z (List.mem_cons_of_mem y hz)⟩
    · simp only [pyInsert, if_neg h]
      refine List.pairwise_cons.mpr ⟨?_, ih hys (fun z hz => hx z (List.mem_cons_of_mem y hz))⟩
      intro z hz
      rcases mem_pyInsert.mp hz with rfl | hz
      · refine ⟨(htot y z).resolve_right ?_, fun hzy => absurd hzy h⟩
        intro hzy
        exact h hzy
      · exact hy z hz

theorem pairwise_pySorted {le : α → α → Bool} {R : α → α → Prop}
    (htrans : ∀ a b c, le a b = true → le b c = true → le a c = true)
    (htot : ∀ a b, le a b = true ∨ le b a = true)
    {l : List α} (hR : l.Pairwise R) :
    (pySorted le l).Pairwise (fun a b => le a b = true ∧ (le b a = true → R a b)) := by
  induction l with
  | nil => simp [pySorted]
  | cons x xs ih =>
    rcases List.pairwise_cons.mp hR with ⟨hx, hxs⟩
    exact pairwise_pyInsert htrans htot (ih hxs)
      (fun y hy => hx y ((pySorted_perm le xs).mem_iff.mp hy))

theorem pySorted_ne_nil {le : α → α → Bool} {l : List α} (h : l ≠ []) :
    pySorted le l ≠ [] := by
  intro hc
  exact h (pySorted_eq_nil_iff.mp hc)

theorem take_ne_nil {l : List α} (h : l ≠ []) : l.take 10 ≠ [] := by
  cases l with
  | nil => exact absurd rfl h
  | cons x xs => simp [List.take]

theorem mem_nearby_iff {n r : Int} :
    r ∈ nearby_rounds n ↔
      0 < r ∧ (r = n - 2 ∨ r = n - 1 ∨ r = n + 1 ∨ r = n + 2) := by
  simp only [nearby_rounds, List.mem_filter, List.mem_cons, List.not_mem_nil, or_false,
    decide_eq_true_eq]
  tauto

theorem self_not_mem_nearby (n : Int) : n ∉ nearby_rounds n := by
  rw [mem_nearby_iff]
  omega

theorem plus3_not_mem_nearby (n : Int) : n + 3 ∉ nearby_rounds n := by
  rw [mem_nearby_iff]
  omega

theorem picked_in_window_iff {picks : List Pick} {u : Nat} {cls rider : String} {n : Int} :
    picked_in_window picks u cls rider n = true ↔
      ∃ p ∈ picks, p.user = u ∧ p.cls = cls ∧ p.rider = rider ∧ 0 < p.round ∧
        (p.round = n - 2 ∨ p.round = n - 1 ∨ p.round = n + 1 ∨ p.round = n + 2) := by
  simp only [picked_in_window, nearby_rounds, List.contains_iff_exists_mem_beq, List.mem_map,
    List.mem_filter, Bool.and_eq_true, beq_iff_eq, List.mem_cons, List.not_mem_nil, or_false,
    decide_eq_true_eq]
  constructor
  · rintro ⟨r, ⟨p, ⟨hp, ⟨hu, hc⟩, q, ⟨hq, hqpos⟩, hqr⟩, rfl⟩, hr⟩
    exact ⟨p, hp, hu, hc, hr.symm, by omega, by omega⟩
  · rintro ⟨p, hp, hu, hc, hr, hpos, hcase⟩
    exact ⟨p.rider, ⟨p, ⟨hp, ⟨hu, hc⟩, p.round, ⟨hcase, hpos⟩, rfl⟩, rfl⟩, hr.symm⟩

theorem submit_pick_fst (picks : List Pick) (rs450 rs250 : List String) (u : Nat)
    (n : Int) (a b : String)
    (e1 : (a == "" || b == "") = false)
    (e2 : (!rs450.contains a || !rs250.contains b) = false) :
    (submit_pick picks rs450 rs250 u n a b).1 =
      if picked_in_window picks u "450" a n then .repeat450
      else if picked_in_window picks u "250" b n then .repeat250
      else .saved := by
  unfold submit_pick
  rw [e1, e2]
  by_cases w1 : picked_in_window picks u "450" a n = true
  · simp [w1]
  · by_cases w2 : picked_in_window picks u "250" b n = true
    · simp [w1, w2]
    · simp [w1, w2]

theorem submit_pick_of_valid {picks : List Pick} {rs450 rs250 : List String} {u : Nat}
    {n : Int} {a b : String}
    (e1 : (a == "" || b == "") = false)
    (e2 : (!rs450.contains a || !rs250.contains b) = false)
    (w1 : picked_in_window picks u "450" a n = false)
    (w2 : picked_in_window picks u "250" b n = false) :
    submit_pick picks rs450 rs250 u n a b =
      (.saved, delete_round_picks picks u n ++
        [⟨u, n, "450", a, false⟩, ⟨u, n, "250", b, false⟩]) := by
  unfold submit_pick
  rw [e1, e2, w1, w2]
  rfl

theorem submit_pick_saved_conditions {picks : List Pick} {rs450 rs250 : List String}
    {u : Nat} {n : Int} {a b : String}
    (h : (submit_pick picks rs450 rs250 u n a b).1 = .saved) :
    (a == "" || b == "") = false ∧ (!rs450.contains a || !rs250.contains b) = false ∧
    picked_in_window picks u "450" a n = false ∧
    picked_in_window picks u "250" b n = false := by
  unfold submit_pick at h
  by_cases c1 : (a == "" || b == "") = true
  · rw [c1] at h
    simp at h
  · rw [Bool.not_eq_true] at c1
    rw [c1] at h
    by_cases c2 : (!rs450.contains a || !rs250.contains b) = true
    · rw [c2] at h
      simp at h
    · rw [Bool.not_eq_true] at c2
      rw [c2] at h
      by_cases c3 : picked_in_window picks u "450" a n = true
      · rw [c3] at h
        simp at h
      · rw [Bool.not_eq_true] at c3
        rw [c3] at h
        by_cases c4 : picked_in_window picks u "250" b n = true
        · rw [c4] at h
          simp at h
        · rw [Bool.not_eq_true] at c4
          exact ⟨c1, c2, c3, c4⟩

theorem picked_in_window_replace {picks new : List Pick} {u u2 : Nat}
    {cls rider : String} {n : Int} (hnew : ∀ p ∈ new, p.round = n) :
    picked_in_window (delete_round_picks picks u n ++ new) u2 cls rider n =
      picked_in_window picks u2 cls rider n := by
  have key : ∀ x y : Bool, (x = true ↔ y = true) → x = y := by
    intro x y hxy
    cases x <;> cases y <;> simp_all
  apply key
  rw [picked_in_window_iff, picked_in_window_iff]
  unfold delete_round_picks
  constructor
  · rintro ⟨p, hp, hu, hc, hr, hpos, hcase⟩
    rcases List.mem_append.mp hp with hdel | hmem
    · exact ⟨p, (List.mem_filter.mp hdel).1, hu, hc, hr, hpos, hcase⟩
    · have := hnew p hmem
      omega
  · rintro ⟨p, hp, hu, hc, hr, hpos, hcase⟩
    have hne : p.round ≠ n := by omega
    refine ⟨p, List.mem_append.mpr (Or.inl (List.mem_filter.mpr ⟨hp, ?_⟩)), hu, hc, hr,
      hpos, hcase⟩
    simp [hne]

/-- C1: the scoring function is the pure mapping: for every positive finishing
position `p`, `get_points p` is 25 if `p = 1`, 22 if `p = 2`, 20 if `p = 3`,
18 if `p = 4`, `22 - p` if `5 ≤ p ≤ 20`, and 0 if `p ≥ 21`; in particular
`get_points 1 = 25`, `get_points 4 = 18`, `get_points 5 = 17`,
`get_points 20 = 2`, `get_points 21 = 0`, `get_points 100 = 0`. -/
theorem C1_scoring_table :
    (∀ p : Int, 0 < p →
      (p = 1 → get_points p = 25) ∧ (p = 2 → get_points p = 22) ∧
      (p = 3 → get_points p = 20) ∧ (p = 4 → get_points p = 18) ∧
      (5 ≤ p → p ≤ 20 → get_points p = 22 - p) ∧ (21 ≤ p → get_points p = 0)) ∧
    get_points 1 = 25 ∧ get_points 4 = 18 ∧ get_points 5 = 17 ∧
    get_points 20 = 2 ∧ get_points 21 = 0 ∧ get_points 100 = 0 := by
  refine ⟨?_, by decide, by decide, by decide, by decide, by decide, by decide⟩
  intro p hp
  unfold get_points
  refine ⟨?_, ?_, ?_, ?_, ?_, ?_⟩ <;> intros <;> split_ifs <;> omega

/-- Witness for C1: the theorem applied at the concrete position 7. -/
theorem C1_scoring_table_witness : get_points 7 = 22 - 7 :=
  (C1_scoring_table.1 7 (by decide)).2.2.2.2.1 (by decide) (by decide)

/-- C10: the per-position points `CASE` expression embedded in the auto-pick
ranking SQL (`casePoints`) is extensionally equal to the scoring function
`get_points` at every finishing position, so both code paths assign identical
points to every result. -/
theorem C10_sql_case_matches_get_points :
    ∀ position : Int, casePoints position = get_points position :=
  fun _ => rfl

/-- C2: given a submission that passes validation (both riders nonempty and in
their rosters), the `pick` route rejects it with the repeat-rule flash if and
only if the user already has a pick of the submitted rider (same class) in one
of the rounds `n-2`, `n-1`, `n+1`, `n+2`, restricted to positive round numbers;
the 450 rider is checked first. Moreover the checked window never contains the
target round `n` itself (a resubmission is not rejected by the repeat rule) nor
the round `n+3`. -/
theorem C2_repeat_rule (picks : List Pick) (rs450 rs250 : List String) (u : Nat)
    (n : Int) (a b : String)
    (h1 : a ≠ "") (h2 : b ≠ "") (h3 : a ∈ rs450) (h4 : b ∈ rs250) :
    (((submit_pick picks rs450 rs250 u n a b).1 = .repeat450 ∨
        (submit_pick picks rs450 rs250 u n a b).1 = .repeat250) ↔
      ((∃ p ∈ picks, p.user = u ∧ p.cls = "450" ∧ p.rider = a ∧ 0 < p.round ∧
          (p.round = n - 2 ∨ p.round = n - 1 ∨ p.round = n + 1 ∨ p.round = n + 2)) ∨
        (∃ p ∈ picks, p.user = u ∧ p.cls = "250" ∧ p.rider = b ∧ 0 < p.round ∧
          (p.round = n - 2 ∨ p.round = n - 1 ∨ p.round = n + 1 ∨ p.round = n + 2)))) ∧
    (((submit_pick picks rs450 rs250 u n a b).1 = .repeat450) ↔
      (∃ p ∈ picks, p.user = u ∧ p.cls = "450" ∧ p.rider = a ∧ 0 < p.round ∧
        (p.round = n - 2 ∨ p.round = n - 1 ∨ p.round = n + 1 ∨ p.round = n + 2))) ∧
    n ∉ nearby_rounds n ∧ n + 3 ∉ nearby_rounds n := by
  have e1 : (a == "" || b == "") = false := by
    simp [h1, h2]
  have c1 : rs450.contains a = true := List.contains_iff_exists_mem_beq.mpr ⟨a, h3, by simp⟩
  have c2 : rs250.contains b = true := List.contains_iff_exists_mem_beq.mpr ⟨b, h4, by simp⟩
  have e2 : (!rs450.contains a || !rs250.contains b) = false := by
    rw [c1, c2]
    rfl
  rw [submit_pick_fst picks rs450 rs250 u n a b e1 e2] at *
  refine ⟨?_, ?_, self_not_mem_nearby n, plus3_not_mem_nearby n⟩
  · rw [← picked_in_window_iff, ← picked_in_window_iff]
    by_cases w1 : picked_in_window picks u "450" a n = true
    · simp [w1]
    · by_cases w2 : picked_in_window picks u "250" b n = true
      · simp [w1, w2]
      · simp [w1, w2]
  · rw [← picked_in_window_iff]
    by_cases w1 : picked_in_window picks u "450" a n = true
    · simp [w1]
    · by_cases w2 : picked_in_window picks u "250" b n = true
      · simp [w1, w2]
      · simp [w1, w2]

/-- C3: after a successful pick submission the stored picks for that
(user, round) are exactly two rows — the submitted 450 rider and the submitted
250 rider, each with `auto_random = false` — regardless of which pick rows
existed for that (user, round) before; and resubmitting the same valid pair on
the resulting state succeeds and reproduces exactly the same stored state (old
rows are fully replaced, never merged or duplicated). -/
theorem C3_replace_and_idempotent (picks : List Pick) (rs450 rs250 : List String)
    (u : Nat) (n : Int) (a b : String)
    (h : (submit_pick picks rs450 rs250 u n a b).1 = .saved) :
    ((submit_pick picks rs450 rs250 u n a b).2.filter
        (fun p => p.user == u && p.round == n) =
      [⟨u, n, "450", a, false⟩, ⟨u, n, "250", b, false⟩]) ∧
    submit_pick (submit_pick picks rs450 rs250 u n a b).2 rs450 rs250 u n a b =
      (.saved, (submit_pick picks rs450 rs250 u n a b).2) := by
  obtain ⟨e1, e2, w1, w2⟩ := submit_pick_saved_conditions h
  have hstep := @submit_pick_of_valid picks rs450 rs250 u n a b e1 e2 w1 w2
  have hfilter_del : ∀ q : Pick → Bool,
      (delete_round_picks picks u n).filter (fun p => p.user == u && p.round == n) = [] := by
    intro q
    unfold delete_round_picks
    rw [List.filter_filter]
    apply List.filter_eq_nil_iff.mpr
    intro p hp
    simp
  constructor
  · rw [hstep]
    simp only [List.filter_append]
    rw [hfilter_del (fun p => p.user == u && p.round == n)]
    simp
  · have hw1 : picked_in_window (delete_round_picks picks u n ++
        [⟨u, n, "450", a, false⟩, ⟨u, n, "250", b, false⟩]) u "450" a n = false := by
      rw [picked_in_window_replace (by
        intro p hp
        simp only [List.mem_cons, List.not_mem_nil, or_false] at hp
        rcases hp with rfl | rfl <;> rfl)]
      exact w1
    have hw2 : picked_in_window (delete_round_picks picks u n ++
        [⟨u, n, "450", a, false⟩, ⟨u, n, "250", b, false⟩]) u "250" b n = false := by
      rw [picked_in_window_replace (by
        intro p hp
        simp only [List.mem_cons, List.not_mem_nil, or_false] at hp
        rcases hp with rfl | rfl <;> rfl)]
      exact w2
    rw [hstep]
    rw [submit_pick_of_valid e1 e2 hw1 hw2]
    congr 1
    unfold delete_round_picks
    rw [List.filter_append, List.filter_filter]
    have h1 : (picks.filter fun p =>
        !(p.user == u && p.round == n) && !(p.user == u && p.round == n)) =
        picks.filter fun p => !(p.user == u && p.round == n) := by
      apply List.filter_congr
      intro p hp
      cases hpc : (p.user == u && p.round == n) <;> simp
    rw [h1]
    simp

/-- Witness for C3: on an empty picks table, submitting riders "A"/"B" for
round 3 succeeds, stores exactly the two rows, and is idempotent. -/
theorem C3_replace_and_idempotent_witness :
    (submit_pick [] ["A"] ["B"] 1 3 "A" "B").1 = .saved ∧
    (((submit_pick [] ["A"] ["B"] 1 3 "A" "B").2.filter
        (fun p => p.user == 1 && p.round == 3) =
      [⟨1, 3, "450", "A", false⟩, ⟨1, 3, "250", "B", false⟩]) ∧
    submit_pick (submit_pick [] ["A"] ["B"] 1 3 "A" "B").2 ["A"] ["B"] 1 3 "A" "B" =
      (.saved, (submit_pick [] ["A"] ["B"] 1 3 "A" "B").2)) :=
  ⟨by decide, C3_replace_and_idempotent [] ["A"] ["B"] 1 3 "A" "B" (by decide)⟩

/-- C4 counterexample: user 7 already has picks for round 3; a POST submission
of valid riders after the deadline produces no error at all (the handler is
skipped), leaving the stored picks unchanged — the page is merely rendered with
its generic locked banner. So the claim "fails with a DeadlinePassed error
reported to the caller; never a silent no-op" is false on the code. -/
theorem C4_counterexample :
    pick_post true [⟨"X", "450", true⟩] [] [] cexPicks 7 3 "X" "Y" 0 0 =
      (.lockedPage, cexPicks) ∧
    flashes_error PickOutcome.lockedPage = false ∧ cexPicks ≠ [] := by
  decide

/-- C4 (amended): a pick submission attempted after the round's deadline by a
user who already has picks for that round is silently ignored: no error is
flashed, the stored picks are left unchanged, and the route just renders the
locked page. (If the user has no picks at all, the POST instead triggers the
lazy auto-pick assignment.) There is no DeadlinePassed error path. -/
theorem C4_amended_silent_noop (ridersDB : List Rider) (schedule : List RoundRow)
    (results : List ResultRow) (picks : List Pick) (u : Nat) (n : Int)
    (a b : String) (i450 i250 : Nat)
    (h : existing_picks_rows picks u n ≠ []) :
    pick_post true ridersDB schedule results picks u n a b i450 i250 =
      (.lockedPage, picks) ∧
    flashes_error (pick_post true ridersDB schedule results picks u n a b i450 i250).1 =
      false := by
  have he : (existing_picks_rows picks u n).isEmpty = false := by
    cases hE : existing_picks_rows picks u n with
    | nil => exact absurd hE h
    | cons x xs => rfl
  unfold pick_post
  rw [he]
  simp [flashes_error]

/-- Witness for C4 (amended): the concrete deadline-passed state. -/
theorem C4_amended_silent_noop_witness :
    existing_picks_rows cexPicks 7 3 ≠ [] ∧
    (pick_post true [⟨"X", "450", true⟩] [] [] cexPicks 7 3 "X" "Y" 0 0 =
        (.lockedPage, cexPicks) ∧
      flashes_error (pick_post true [⟨"X", "450", true⟩] [] [] cexPicks 7 3 "X" "Y" 0 0).1 =
        false) :=
  ⟨by decide, C4_amended_silent_noop [⟨"X", "450", true⟩] [] [] cexPicks 7 3 "X" "Y" 0 0
    (by decide)⟩

/-- Witness for C2: a pick of rider "A" (450) in round 2 makes the round-3
resubmission of "A" fail the repeat rule. -/
theorem C2_repeat_rule_witness :
    ("A" : String) ≠ "" ∧ ("B" : String) ≠ "" ∧ "A" ∈ ["A"] ∧ "B" ∈ ["B"] ∧
    ((((submit_pick [⟨1, 2, "450", "A", false⟩] ["A"] ["B"] 1 3 "A" "B").1 = .repeat450 ∨
        (submit_pick [⟨1, 2, "450", "A", false⟩] ["A"] ["B"] 1 3 "A" "B").1 = .repeat250) ↔
      ((∃ p ∈ [Pick.mk 1 2 "450" "A" false], p.user = 1 ∧ p.cls = "450" ∧ p.rider = "A" ∧
          0 < p.round ∧
          (p.round = 3 - 2 ∨ p.round = 3 - 1 ∨ p.round = 3 + 1 ∨ p.round = 3 + 2)) ∨
        (∃ p ∈ [Pick.mk 1 2 "450" "A" false], p.user = 1 ∧ p.cls = "250" ∧ p.rider = "B" ∧
          0 < p.round ∧
          (p.round = 3 - 2 ∨ p.round = 3 - 1 ∨ p.round = 3 + 1 ∨ p.round = 3 + 2)))) ∧
    (((submit_pick [⟨1, 2, "450", "A", false⟩] ["A"] ["B"] 1 3 "A" "B").1 = .repeat450) ↔
      (∃ p ∈ [Pick.mk 1 2 "450" "A" false], p.user = 1 ∧ p.cls = "450" ∧ p.rider = "A" ∧
        0 < p.round ∧
        (p.round = 3 - 2 ∨ p.round = 3 - 1 ∨ p.round = 3 + 1 ∨ p.round = 3 + 2))) ∧
    (3 : Int) ∉ nearby_rounds 3 ∧ (3 : Int) + 3 ∉ nearby_rounds 3) :=
  ⟨by decide, by decide, by decide, by decide,
    C2_repeat_rule [⟨1, 2, "450", "A", false⟩] ["A"] ["B"] 1 3 "A" "B"
      (by decide) (by decide) (by decide) (by decide)⟩

theorem collect_positions_eq_none_iff (form : String → Option Nat) :
    ∀ (riders : List String) (seen : List Nat),
      collect_positions form riders seen = none ↔
        ¬((riders.filterMap form).Nodup ∧ ∀ p ∈ riders.filterMap form, p ∉ seen) := by
  intro riders
  induction riders with
  | nil =>
    intro seen
    simp [collect_positions]
  | cons r rest ih =>
    intro seen
    cases hf : form r with
    | none =>
      simp only [collect_positions, hf, List.filterMap_cons]
      exact ih seen
    | some pos =>
      by_cases hs : seen.contains pos = true
      · have hmem : pos ∈ seen := by simpa using hs
        simp only [collect_positions, hf, if_pos hs, List.filterMap_cons]
        constructor
        · rintro - ⟨-, hall⟩
          exact hall pos (List.mem_cons_self pos _) hmem
        · intro
          trivial
      · have hmem : pos ∉ seen := by simpa using hs
        simp only [collect_positions, hf, if_neg hs, List.filterMap_cons]
        have hred : (match collect_positions form rest (pos :: seen) with
            | none => (none : Option (List (String × Nat)))
            | some tail => some ((r, pos) :: tail)) = none ↔
            collect_positions form rest (pos :: seen) = none := by
          cases collect_positions form rest (pos :: seen) <;> simp
        rw [hred, ih (pos :: seen)]
        apply not_congr
        constructor
        · rintro ⟨hnd, hall⟩
          refine ⟨List.nodup_cons.mpr ⟨?_, hnd⟩, ?_⟩
          · intro hposfm
            exact absurd (List.mem_cons_self pos seen) (hall pos hposfm)
          · intro q hq
            rcases List.mem_cons.mp hq with rfl | hq2
            · exact hmem
            · exact fun hqs => hall q hq2 (List.mem_cons_of_mem pos hqs)
        · rintro ⟨hnd, hall⟩
          rcases List.nodup_cons.mp hnd with ⟨hpos_fm, hnd2⟩
          refine ⟨hnd2, ?_⟩
          intro q hq hqin
          rcases List.mem_cons.mp hqin with rfl | hqs
          · exact hpos_fm hq
          · exact hall q (List.mem_cons_of_mem pos hq) hqs

theorem admin_post_dup_rejected (form : String → String → Option Nat)
    (riders450 riders250 : List String) (n : Int) (results : List ResultRow)
    (h : ¬(assigned_positions (form "450") riders450).Nodup ∨
      ¬(assigned_positions (form "250") riders250).Nodup) :
    admin_results_post form riders450 riders250 n results = (.duplicatePos, results) := by
  unfold admin_results_post
  by_cases h450 : (assigned_positions (form "450") riders450).Nodup
  · have h250 : ¬(assigned_positions (form "250") riders250).Nodup := by
      rcases h with hc | hc
      · exact absurd h450 hc
      · exact hc
    have hc2 : collect_positions (form "250") riders250 [] = none := by
      rw [collect_positions_eq_none_iff]
      rintro ⟨hnd, -⟩
      exact h250 hnd
    cases hc1 : collect_positions (form "450") riders450 [] with
    | none => rfl
    | some e450 =>
      rw [hc2]
  · have hc1 : collect_positions (form "450") riders450 [] = none := by
      rw [collect_positions_eq_none_iff]
      rintro ⟨hnd, -⟩
      exact h450 hnd
    rw [hc1]

/-- C5: if any two riders in the same class of a manually entered batch are
assigned the same finishing position, the entire batch is rejected with the
duplicate-position error and no result row from the batch (for any rider of
that round, in either class, including the non-colliding ones) is written: the
results store is returned unchanged. -/
theorem C5_duplicate_blocks_batch (form : String → String → Option Nat)
    (riders450 riders250 : List String) (n : Int) (results : List ResultRow)
    (h : ¬(assigned_positions (form "450") riders450).Nodup ∨
      ¬(assigned_positions (form "250") riders250).Nodup) :
    admin_results_post form riders450 riders250 n results = (.duplicatePos, results) :=
  admin_post_dup_rejected form riders450 riders250 n results h

/-- Witness for C5: positions 1 and 1 for riders "A" and "B" of the 450 class
are rejected and the store (holding one unrelated row) is untouched. -/
theorem C5_duplicate_blocks_batch_witness :
    (¬(assigned_positions (exFormDup "450") ["A", "B"]).Nodup ∨
      ¬(assigned_positions (exFormDup "250") []).Nodup) ∧
    admin_results_post exFormDup ["A", "B"] [] 1 [⟨2, "450", "C", 4⟩] =
      (.duplicatePos, [⟨2, "450", "C", 4⟩]) :=
  ⟨by decide,
    C5_duplicate_blocks_batch exFormDup ["A", "B"] [] 1 [⟨2, "450", "C", 4⟩] (by decide)⟩

/-- C6 counterexample: the store already holds rider "A" at position 1 of
(round 1, class 450) and satisfies the uniqueness invariant; a batch entering
only rider "B" at position 1 for the same round and class is accepted (it has
no internal duplicate), and the resulting store holds two riders at position 1
in (round 1, 450) — manual entry does not preserve uniqueness against the
results already stored, so the claimed invariant is false on the code. -/
theorem C6_counterexample :
    positions_unique [(⟨1, "450", "A", 1⟩ : ResultRow)] ∧
    admin_results_post exForm ["B"] [] 1 [⟨1, "450", "A", 1⟩] =
      (.saved 1, [⟨1, "450", "A", 1⟩, ⟨1, "450", "B", 1⟩]) ∧
    ¬positions_unique [(⟨1, "450", "A", 1⟩ : ResultRow), ⟨1, "450", "B", 1⟩] := by
  decide

/-- C6 (amended): manual result entry enforces position uniqueness only within
the submitted batch: a batch that is accepted (not rejected with the
duplicate-position error) assigns pairwise-distinct positions within each
class. Uniqueness against rows already stored for riders absent from the batch
is not checked (and the automatic import checks nothing), so the store-level
invariant can be violated. -/
theorem C6_amended_within_batch_unique (form : String → String → Option Nat)
    (riders450 riders250 : List String) (n : Int) (results : List ResultRow)
    (h : (admin_results_post form riders450 riders250 n results).1 ≠ .duplicatePos) :
    (assigned_positions (form "450") riders450).Nodup ∧
    (assigned_positions (form "250") riders250).Nodup := by
  constructor
  · by_contra hnd
    have := admin_post_dup_rejected form riders450 riders250 n results (Or.inl hnd)
    rw [this] at h
    exact h rfl
  · by_contra hnd
    have := admin_post_dup_rejected form riders450 riders250 n results (Or.inr hnd)
    rw [this] at h
    exact h rfl

/-- Witness for C6 (amended): the accepted single-entry batch of the
counterexample scenario indeed has duplicate-free positions per class. -/
theorem C6_amended_within_batch_unique_witness :
    (admin_results_post exForm ["B"] [] 1 [⟨1, "450", "A", 1⟩]).1 ≠ .duplicatePos ∧
    ((assigned_positions (exForm "450") ["B"]).Nodup ∧
      (assigned_positions (exForm "250") []).Nodup) :=
  ⟨by decide, C6_amended_within_batch_unique exForm ["B"] [] 1 [⟨1, "450", "A", 1⟩]
    (by decide)⟩

theorem exclude_filter_eq (l exclude : List String) :
    (if exclude.isEmpty then l else l.filter (fun r => !exclude.contains r)) =
      l.filter (fun r => !exclude.contains r) := by
  by_cases he : exclude.isEmpty = true
  · have hnil : exclude = [] := List.isEmpty_iff.mp he
    subst hnil
    simp [List.contains]
  · rw [Bool.not_eq_true] at he
    rw [he]
    simp

theorem rchoice_isSome_of_ne_nil {l : List String} (h : l ≠ []) (i : Nat) :
    (rchoice l i).isSome := by
  unfold rchoice
  rw [List.isEmpty_eq_false.mpr h]
  simp only [Bool.false_eq_true, if_false]
  have hlen : 0 < l.length := List.length_pos.mpr h
  have hmod : i % l.length < l.length := Nat.mod_lt i hlen
  cases hg : l.get? (i % l.length) with
  | none =>
    have := List.get?_eq_none.mp hg
    omega
  | some v => rfl

/-- C7 counterexample: the 450 roster holds exactly one eligible active rider
"X", but "X" is inside the user's exclusion window; the candidate pool of
`get_top_riders_by_points` is empty through every fallback, so `random.choice`
yields nothing and no pick is produced — refuting the claim that a pick is
produced whenever at least one eligible active rider exists. -/
theorem C7_counterexample :
    available_riders_for [⟨"X", "450", true⟩] [] "450" 2 ≠ [] ∧
    get_top_riders_by_points [⟨"X", "450", true⟩] [] [] "450" 2 ["X"] = [] ∧
    rchoice (get_top_riders_by_points [⟨"X", "450", true⟩] [] [] "450" 2 ["X"]) 0 = none := by
  decide

/-- C7 (amended): for every user, round and class, whenever at least one
eligible active rider for that round/class exists outside the user's ±2-round
exclusion window, the fallback chain of the auto-pick assigner yields a
non-empty candidate pool, and `random.choice` then produces a pick, whatever
the random draw — even when all riders with historical results are inside the
exclusion window. -/
theorem C7_amended_pool_nonempty (ridersDB : List Rider) (schedule : List RoundRow)
    (results : List ResultRow) (cls : String) (n : Int) (exclude : List String)
    (h : (available_riders_for ridersDB schedule cls n).filter
        (fun r => !exclude.contains r) ≠ []) :
    get_top_riders_by_points ridersDB schedule results cls n exclude ≠ [] ∧
    ∀ i, (rchoice (get_top_riders_by_points ridersDB schedule results cls n exclude) i).isSome := by
  have hmain : get_top_riders_by_points ridersDB schedule results cls n exclude ≠ [] := by
    have hav : available_riders_for ridersDB schedule cls n ≠ [] := by
      intro he
      rw [he] at h
      exact h rfl
    simp only [get_top_riders_by_points]
    rw [List.isEmpty_eq_false.mpr hav]
    simp only [Bool.false_eq_true, if_false]
    rw [exclude_filter_eq]
    split
    · next hcond =>
      simpa using hcond
    · next hcond =>
      split
      · next hc2 =>
        have hF : (((available_riders_for ridersDB schedule cls n).filter
            (fun r => !(hist_results results r n).isEmpty)).filter
            (fun r => !exclude.contains r)) ≠ [] := by
          simpa using hc2
        exact take_ne_nil (pySorted_ne_nil hF)
      · next hc2 =>
        exact h
  exact ⟨hmain, fun i => rchoice_isSome_of_ne_nil hmain i⟩

/-- Witness for C7 (amended): rider "Y" is active and outside the window, so
the pool is non-empty and every random draw produces a pick. -/
theorem C7_amended_pool_nonempty_witness :
    (available_riders_for [⟨"Y", "450", true⟩] [] "450" 2).filter
        (fun r => !(["X"] : List String).contains r) ≠ [] ∧
    (get_top_riders_by_points [⟨"Y", "450", true⟩] [] [] "450" 2 ["X"] ≠ [] ∧
      ∀ i, (rchoice
        (get_top_riders_by_points [⟨"Y", "450", true⟩] [] [] "450" 2 ["X"])
        i).isSome) :=
  ⟨by decide,
    C7_amended_pool_nonempty [⟨"Y", "450", true⟩] [] [] "450" 2 ["X"]
      (by decide)⟩

theorem add_bucket_inv {t : Totals} (rt : RaceType) (pts : Int)
    (h : t.overall = t.supercross + t.motocross + t.smx) :
    (add_bucket t rt pts).overall =
      (add_bucket t rt pts).supercross + (add_bucket t rt pts).motocross +
        (add_bucket t rt pts).smx := by
  cases rt <;> simp [add_bucket] <;> omega

theorem score_step_inv {picks : List Pick} {results : List ResultRow} {u : Nat}
    {n : Int} {rt : RaceType} {cls : String} {t : Totals}
    (h : t.overall = t.supercross + t.motocross + t.smx) :
    (score_step picks results u n rt cls t).overall =
      (score_step picks results u n rt cls t).supercross +
        (score_step picks results u n rt cls t).motocross +
        (score_step picks results u n rt cls t).smx := by
  unfold score_step
  cases hpl : pick_lookup picks u n cls with
  | none => simpa using h
  | some p =>
    cases hrl : result_lookup results n cls p.rider with
    | none => simpa [hrl] using h
    | some pos => simpa [hrl] using add_bucket_inv rt (get_points pos) h

/-- C9: after any leaderboard recalculation, for every user the accumulated
'overall' total equals the sum of that user's 'supercross', 'motocross' and
'SMX' totals: each scored pick adds its points exactly once to the overall
bucket and exactly once to the bucket of its round's race type. -/
theorem C9_overall_is_sum_of_buckets (picks : List Pick) (results : List ResultRow)
    (schedule : List RoundRow) (visible_rounds : List Int) (u : Nat) :
    (user_totals picks results schedule visible_rounds u).overall =
      (user_totals picks results schedule visible_rounds u).supercross +
        (user_totals picks results schedule visible_rounds u).motocross +
        (user_totals picks results schedule visible_rounds u).smx := by
  unfold user_totals
  suffices H : ∀ (l : List Int) (t : Totals),
      t.overall = t.supercross + t.motocross + t.smx →
      (l.foldl (fun t n =>
          score_step picks results u n (race_type_of schedule n) "250"
            (score_step picks results u n (race_type_of schedule n) "450" t)) t).overall =
        (l.foldl (fun t n =>
          score_step picks results u n (race_type_of schedule n) "250"
            (score_step picks results u n (race_type_of schedule n) "450" t)) t).supercross +
        (l.foldl (fun t n =>
          score_step picks results u n (race_type_of schedule n) "250"
            (score_step picks results u n (race_type_of schedule n) "450" t)) t).motocross +
        (l.foldl (fun t n =>
          score_step picks results u n (race_type_of schedule n) "250"
            (score_step picks results u n (race_type_of schedule n) "450" t)) t).smx by
    exact H visible_rounds ⟨0, 0, 0, 0⟩ (by simp)
  intro l
  induction l with
  | nil =>
    intro t ht
    simpa using ht
  | cons n rest ih =>
    intro t ht
    simp only [List.foldl_cons]
    exact ih _ (score_step_inv (score_step_inv ht))

theorem enum_map_snd_eq (l : List α) : l.enum.map Prod.snd = l :=
  List.enumFrom_map_snd 0 l

theorem enumFrom_map_rank (k : Nat) (l : List α) :
    (l.enumFrom k).map (fun p => p.1 + 1) = List.range' (k + 1) l.length := by
  induction l generalizing k with
  | nil => rfl
  | cons x xs ih =>
    simp only [List.enumFrom_cons, List.map_cons, List.length_cons, List.range'_succ]
    exact congrArg (List.cons (k + 1)) (ih (k + 1))

theorem pairwise_enum_snd {R : α → α → Prop} {l : List α} (h : l.Pairwise R) :
    l.enum.Pairwise (fun p q => R p.2 q.2) := by
  have h2 : (l.enum.map Prod.snd).Pairwise R := by
    rw [enum_map_snd_eq]
    exact h
  exact List.pairwise_map.mp h2

theorem leaderboard_rows_spec (users : List UserRow) (total : Nat → Int) (view : String)
    (husers : users.Pairwise (fun a b => a.username < b.username)) :
    ((leaderboard_rows users total view).map (fun r => r.user_id)).Perm
      (users.map (fun u => u.id)) ∧
    (∀ row ∈ leaderboard_rows users total view,
      row.total_points = total row.user_id ∧ row.view_type = view) ∧
    (leaderboard_rows users total view).map (fun r => r.rank) =
      List.range' 1 users.length ∧
    (leaderboard_rows users total view).Pairwise
      (fun r s => s.total_points ≤ r.total_points ∧
        (r.total_points ≤ s.total_points → r.username < s.username)) := by
  simp only [leaderboard_rows]
  refine ⟨?_, ?_, ?_, ?_⟩
  · have h1 : (((pySorted (fun a b => decide (total b.id ≤ total a.id)) users).enum.map
          (fun p => (⟨p.2.id, p.2.username, view, total p.2.id, p.1 + 1⟩ : TotalsRow))).map
          (fun r => r.user_id)) =
        (pySorted (fun a b => decide (total b.id ≤ total a.id)) users).map (fun u => u.id) := by
      rw [List.map_map]
      conv_rhs => rw [← enum_map_snd_eq (pySorted (fun a b => decide (total b.id ≤ total a.id)) users)]
      rw [List.map_map]
      rfl
    rw [h1]
    exact (pySorted_perm _ users).map (fun u => u.id)
  · intro row hrow
    rcases List.mem_map.mp hrow with ⟨p, hp, rfl⟩
    exact ⟨rfl, rfl⟩
  · rw [List.map_map]
    have h2 : ((fun r : TotalsRow => r.rank) ∘
          (fun p : Nat × UserRow => (⟨p.2.id, p.2.username, view, total p.2.id, p.1 + 1⟩ : TotalsRow))) =
        fun p : Nat × UserRow => p.1 + 1 := rfl
    rw [h2, show (pySorted (fun a b => decide (total b.id ≤ total a.id)) users).enum =
      (pySorted (fun a b => decide (total b.id ≤ total a.id)) users).enumFrom 0 from rfl]
    rw [enumFrom_map_rank 0 _]
    rw [(pySorted_perm (fun a b => decide (total b.id ≤ total a.id)) users).length_eq]
  · apply List.pairwise_map.mpr
    have hS : (pySorted (fun a b => decide (total b.id ≤ total a.id)) users).Pairwise
        (fun a b => (decide (total b.id ≤ total a.id)) = true ∧
          ((decide (total a.id ≤ total b.id)) = true → a.username < b.username)) := by
      apply pairwise_pySorted
      · intro a b c hab hbc
        simp only [decide_eq_true_eq] at *
        omega
      · intro a b
        simp only [decide_eq_true_eq]
        omega
      · exact husers
    have hE := pairwise_enum_snd hS
    apply hE.imp
    intro p q hpq
    simp only [decide_eq_true_eq] at hpq
    exact ⟨hpq.1, hpq.2⟩

/-- C8: for every view-type, the ranking phase of leaderboard recalculation
persists exactly one totals row per user (the row multiset of user ids is a
permutation of the users), each row carrying that user's total points for the
view, with dense 1-based ranks `1..n`, the rows ordered by descending total
points and users of equal totals tie-broken by ascending username (the stable
sort order of the username-ordered `users` query). -/
theorem C8_ranking_dense_and_ordered (picks : List Pick) (results : List ResultRow)
    (schedule : List RoundRow) (visible_rounds : List Int) (users : List UserRow)
    (view : String)
    (husers : users.Pairwise (fun a b => a.username < b.username)) :
    ((recalculate_totals_rows picks results schedule visible_rounds users view).map
        (fun r => r.user_id)).Perm (users.map (fun u => u.id)) ∧
    (∀ row ∈ recalculate_totals_rows picks results schedule visible_rounds users view,
      row.total_points =
        view_total (user_totals picks results schedule visible_rounds row.user_id) view ∧
      row.view_type = view) ∧
    (recalculate_totals_rows picks results schedule visible_rounds users view).map
        (fun r => r.rank) = List.range' 1 users.length ∧
    (recalculate_totals_rows picks results schedule visible_rounds users view).Pairwise
      (fun r s => s.total_points ≤ r.total_points ∧
        (r.total_points ≤ s.total_points → r.username < s.username)) :=
  leaderboard_rows_spec users
    (fun uid => view_total (user_totals picks results schedule visible_rounds uid) view)
    view husers

/-- Witness for C8: the single-user instance (the hypothesis that the users
query is username-sorted is trivially satisfied). -/
theorem C8_ranking_dense_and_ordered_witness :
    ([(⟨1, "ann"⟩ : UserRow)].Pairwise (fun a b => a.username < b.username)) ∧
    (((recalculate_totals_rows [] [] [] [] [⟨1, "ann"⟩] "overall").map
        (fun r => r.user_id)).Perm ([(⟨1, "ann"⟩ : UserRow)].map (fun u => u.id)) ∧
    (∀ row ∈ recalculate_totals_rows [] [] [] [] [⟨1, "ann"⟩] "overall",
      row.total_points = view_total (user_totals [] [] [] [] row.user_id) "overall" ∧
      row.view_type = "overall") ∧
    (recalculate_totals_rows [] [] [] [] [⟨1, "ann"⟩] "overall").map
        (fun r => r.rank) = List.range' 1 [(⟨1, "ann"⟩ : UserRow)].length ∧
    (recalculate_totals_rows [] [] [] [] [⟨1, "ann"⟩] "overall").Pairwise
      (fun r s => s.total_points ≤ r.total_points ∧
        (r.total_points ≤ s.total_points → r.username < s.username))) :=
  ⟨by decide,
    C8_ranking_dense_and_ordered [] [] [] [] [⟨1, "ann"⟩] "overall" (by decide)⟩

end SLR
